import Mathlib

/-!
Shallow embedding of the DC-motor PID-control simulation in `src/main.py`
(repository `Electric-Motor-Modeling`).

The Python module keeps the configuration in module-level globals that the
dashboard callback `updateGraphs` overwrites from the slider values before
each run; here that effective configuration is gathered into a `Params`
record.  The seven Python lists mutated by the simulation loop become the
fields of `SimState`, the loop body (src/main.py lines 233-255) becomes the
pure step function `simStep`, and running the loop for `n` iterations from
the re-initialised lists becomes `runSim`.  Machine floats are modelled as
real numbers.
-/

open Real

noncomputable section

/-- Effective configuration of one simulation run: the module globals of
`src/main.py` after `updateGraphs` has installed the slider values
(loadMoment, referencedRevolutionsPerMinute, Kp, Ki, Kd) next to the fixed
module constants. -/
structure Params where
  referencedRevolutionsPerMinute : ℝ
  timeOfSimulation : ℝ
  timeOfSample : ℝ
  brakingMoment : ℝ
  loadMoment : ℝ
  momentOfInertia : ℝ
  constantOfElectromagneticMoment : ℝ
  Kp : ℝ
  Ki : ℝ
  Kd : ℝ
  Umax : ℝ
  Umin : ℝ

/-- Python's `int(x)` conversion on a real number: truncation toward zero. -/
def pyInt (x : ℝ) : ℤ :=
  if 0 ≤ x then ⌊x⌋ else ⌈x⌉

/-- Embeds `calculateNumberOfIterations` (src/main.py lines 48-58):
`int(timeOfSimulation / timeOfSample) + 1`. -/
def calculateNumberOfIterations (timeOfSimulation timeOfSample : ℝ) : ℤ :=
  pyInt (timeOfSimulation / timeOfSample) + 1

/-- Embeds `calculateAdjustmentError` (src/main.py lines 61-71). -/
def calculateAdjustmentError (referencedRevolutionsPerMinute currentRevolutionsPerMinute : ℝ) : ℝ :=
  referencedRevolutionsPerMinute - currentRevolutionsPerMinute

/-- Embeds `calculateVoltageOfRegulator` (src/main.py lines 74-100).
List indexing `errorList[iteration]` is total in range for every call the
driver makes; it is embedded with `List.getD` (default 0). -/
def calculateVoltageOfRegulator (p : Params) (errorList : List ℝ) (iteration : ℕ) : ℝ :=
  let proportional := p.Kp * errorList.getD iteration 0
  let integral := p.Ki * errorList.sum * p.timeOfSample
  let derivative :=
    if iteration > 0 then
      (errorList.getD iteration 0 - errorList.getD (iteration - 1) 0) / p.timeOfSample
    else 0
  proportional + integral + p.Kd * derivative

/-- Embeds `calculateElectromagneticMoment` (src/main.py lines 103-113). -/
def calculateElectromagneticMoment (constant currentVoltage : ℝ) : ℝ :=
  constant * currentVoltage

/-- Embeds `calculateNormalizedVoltage` (src/main.py lines 116-125):
`max(Umin, min(Umax, v))`. -/
def calculateNormalizedVoltage (p : Params) (voltgeOfRegulator : ℝ) : ℝ :=
  max p.Umin (min p.Umax voltgeOfRegulator)

/-- Embeds `convertToAngularVelocity` (src/main.py lines 128-129). -/
def convertToAngularVelocity (valueToBeConverted : ℝ) : ℝ :=
  valueToBeConverted * (2 * π / 60)

/-- Embeds `convertToRevolutionsPerMinute` (src/main.py lines 132-133). -/
def convertToRevolutionsPerMinute (valueToBeConverted : ℝ) : ℝ :=
  valueToBeConverted * (60 / (2 * π))

/-- Embeds `calculateRevolutions` (src/main.py lines 136-151): one explicit
Euler step on the angular velocity under the configured torques. -/
def calculateRevolutions (p : Params) (latestRevolution latestElectromagneticMoment : ℝ) : ℝ :=
  let omega := convertToAngularVelocity latestRevolution
  let acceleration :=
    (latestElectromagneticMoment - p.loadMoment - p.brakingMoment) / p.momentOfInertia
  let newOmega := omega + p.timeOfSample * acceleration
  convertToRevolutionsPerMinute newOmega

/-- The seven per-run series of `updateGraphs` (the Python lists
`timeOfSimulationList`, `loadMomentList`, `electromagneticMomentList`,
`adjustmentErrors`, `voltagesList`, `revolutionsList`,
`brakingMomentList`). -/
structure SimState where
  timeOfSimulationList : List ℝ
  loadMomentList : List ℝ
  electromagneticMomentList : List ℝ
  adjustmentErrors : List ℝ
  voltagesList : List ℝ
  revolutionsList : List ℝ
  brakingMomentList : List ℝ

/-- The seed lists re-initialised at the top of `updateGraphs`
(src/main.py lines 224-230).  Note that `loadMomentList` is seeded with
`[0.0]`, not with the configured load moment, while `brakingMomentList`
is seeded with `[brakingMoment]`. -/
def initState (p : Params) : SimState where
  timeOfSimulationList := [0]
  loadMomentList := [0]
  electromagneticMomentList := [0]
  adjustmentErrors := [p.referencedRevolutionsPerMinute]
  voltagesList := [0]
  revolutionsList := [0]
  brakingMomentList := [p.brakingMoment]

/-- One pass of the simulation loop body at index `i`
(src/main.py lines 233-255), preserving the Python sequencing: the reads
`voltagesList[i]`, `electromagneticMomentList[i]` and (for the error)
`revolutionsList[i]` happen after this iteration's value was already
appended to the corresponding list, so they pick up the entry stored one
sample earlier. -/
def simStep (p : Params) (i : ℕ) (s : SimState) : SimState :=
  let timeOfSimulationList :=
    s.timeOfSimulationList ++ [s.timeOfSimulationList.getD i 0 + p.timeOfSample]
  let voltagesList :=
    s.voltagesList ++ [calculateNormalizedVoltage p (calculateVoltageOfRegulator p s.adjustmentErrors i)]
  let electromagneticMomentList :=
    s.electromagneticMomentList ++
      [calculateElectromagneticMoment p.constantOfElectromagneticMoment (voltagesList.getD i 0)]
  let revolutionsList :=
    s.revolutionsList ++
      [calculateRevolutions p (s.revolutionsList.getD i 0) (electromagneticMomentList.getD i 0)]
  let adjustmentErrors :=
    s.adjustmentErrors ++
      [calculateAdjustmentError p.referencedRevolutionsPerMinute (revolutionsList.getD i 0)]
  { timeOfSimulationList := timeOfSimulationList
    loadMomentList := s.loadMomentList ++ [p.loadMoment]
    electromagneticMomentList := electromagneticMomentList
    adjustmentErrors := adjustmentErrors
    voltagesList := voltagesList
    revolutionsList := revolutionsList
    brakingMomentList := s.brakingMomentList ++ [p.brakingMoment] }

/-- State of the seven series after the first `n` iterations of the
simulation loop of `updateGraphs`. -/
def runSim (p : Params) : ℕ → SimState
  | 0 => initState p
  | n + 1 => simStep p n (runSim p n)

/-- Number of iterations the simulation loop actually executes:
`range(int(timeOfSimulation / timeOfSample))` (src/main.py line 233). -/
def simIterationCount (p : Params) : ℕ :=
  (pyInt (p.timeOfSimulation / p.timeOfSample)).toNat

/-- The completed run: all series after the full loop. -/
def fullRun (p : Params) : SimState :=
  runSim p (simIterationCount p)

/-- The worked-scenario configuration of spec section 8, property 7:
slider values loadMoment = 1, referenced RPM = 3000, Kp = 0.007,
Ki = 0.00013, Kd = 0.0015 over the fixed module constants. -/
def scenarioParams : Params where
  referencedRevolutionsPerMinute := 3000
  timeOfSimulation := 1000
  timeOfSample := 0.1
  brakingMoment := 0.2
  loadMoment := 1
  momentOfInertia := 1.2
  constantOfElectromagneticMoment := 0.4
  Kp := 0.007
  Ki := 0.00013
  Kd := 0.0015
  Umax := 24
  Umin := 0

/-- The zero-gain configuration used for the decay property:
Kp = Ki = Kd = 0, other values as in the worked scenario. -/
def zeroGainParams : Params where
  referencedRevolutionsPerMinute := 3000
  timeOfSimulation := 1000
  timeOfSample := 0.1
  brakingMoment := 0.2
  loadMoment := 1
  momentOfInertia := 1.2
  constantOfElectromagneticMoment := 0.4
  Kp := 0
  Ki := 0
  Kd := 0
  Umax := 24
  Umin := 0

/-! ### Structural lemmas about one loop iteration -/

theorem simStep_timeOfSimulationList (p : Params) (i : ℕ) (s : SimState) :
    (simStep p i s).timeOfSimulationList
      = s.timeOfSimulationList ++ [s.timeOfSimulationList.getD i 0 + p.timeOfSample] := rfl

theorem simStep_loadMomentList (p : Params) (i : ℕ) (s : SimState) :
    (simStep p i s).loadMomentList = s.loadMomentList ++ [p.loadMoment] := rfl

theorem simStep_brakingMomentList (p : Params) (i : ℕ) (s : SimState) :
    (simStep p i s).brakingMomentList = s.brakingMomentList ++ [p.brakingMoment] := rfl

theorem simStep_voltagesList (p : Params) (i : ℕ) (s : SimState) :
    (simStep p i s).voltagesList
      = s.voltagesList ++
          [calculateNormalizedVoltage p (calculateVoltageOfRegulator p s.adjustmentErrors i)] := rfl

theorem simStep_electromagneticMomentList_raw (p : Params) (i : ℕ) (s : SimState) :
    (simStep p i s).electromagneticMomentList
      = s.electromagneticMomentList ++
          [calculateElectromagneticMoment p.constantOfElectromagneticMoment
            ((simStep p i s).voltagesList.getD i 0)] := rfl

theorem simStep_revolutionsList_raw (p : Params) (i : ℕ) (s : SimState) :
    (simStep p i s).revolutionsList
      = s.revolutionsList ++
          [calculateRevolutions p (s.revolutionsList.getD i 0)
            ((simStep p i s).electromagneticMomentList.getD i 0)] := rfl

theorem simStep_adjustmentErrors_raw (p : Params) (i : ℕ) (s : SimState) :
    (simStep p i s).adjustmentErrors
      = s.adjustmentErrors ++
          [calculateAdjustmentError p.referencedRevolutionsPerMinute
            ((simStep p i s).revolutionsList.getD i 0)] := rfl

theorem simStep_electromagneticMomentList (p : Params) (i : ℕ) (s : SimState)
    (hv : i < s.voltagesList.length) :
    (simStep p i s).electromagneticMomentList
      = s.electromagneticMomentList ++
          [calculateElectromagneticMoment p.constantOfElectromagneticMoment
            (s.voltagesList.getD i 0)] := by
  rw [simStep_electromagneticMomentList_raw, simStep_voltagesList,
    List.getD_append _ _ _ _ hv]

theorem simStep_revolutionsList (p : Params) (i : ℕ) (s : SimState)
    (he : i < s.electromagneticMomentList.length) :
    (simStep p i s).revolutionsList
      = s.revolutionsList ++
          [calculateRevolutions p (s.revolutionsList.getD i 0)
            (s.electromagneticMomentList.getD i 0)] := by
  rw [simStep_revolutionsList_raw, simStep_electromagneticMomentList_raw,
    List.getD_append _ _ _ _ he]

theorem simStep_adjustmentErrors (p : Params) (i : ℕ) (s : SimState)
    (hr : i < s.revolutionsList.length) :
    (simStep p i s).adjustmentErrors
      = s.adjustmentErrors ++
          [calculateAdjustmentError p.referencedRevolutionsPerMinute
            (s.revolutionsList.getD i 0)] := by
  rw [simStep_adjustmentErrors_raw, simStep_revolutionsList_raw,
    List.getD_append _ _ _ _ hr]

/-! ### Series lengths -/

theorem length_runSim (p : Params) (n : ℕ) :
    (runSim p n).timeOfSimulationList.length = n + 1 ∧
    (runSim p n).loadMomentList.length = n + 1 ∧
    (runSim p n).electromagneticMomentList.length = n + 1 ∧
    (runSim p n).adjustmentErrors.length = n + 1 ∧
    (runSim p n).voltagesList.length = n + 1 ∧
    (runSim p n).revolutionsList.length = n + 1 ∧
    (runSim p n).brakingMomentList.length = n + 1 := by
  induction n with
  | zero => simp [runSim, initState]
  | succ k ih =>
    obtain ⟨h1, h2, h3, h4, h5, h6, h7⟩ := ih
    refine ⟨?_, ?_, ?_, ?_, ?_, ?_, ?_⟩ <;>
      simp [runSim, simStep_timeOfSimulationList, simStep_loadMomentList,
        simStep_electromagneticMomentList_raw, simStep_adjustmentErrors_raw,
        simStep_voltagesList, simStep_revolutionsList_raw,
        simStep_brakingMomentList, h1, h2, h3, h4, h5, h6, h7]

/-! ### One-iteration unfolding at the `runSim` level -/

theorem runSim_voltagesList_succ (p : Params) (n : ℕ) :
    (runSim p (n + 1)).voltagesList
      = (runSim p n).voltagesList ++
          [calculateNormalizedVoltage p
            (calculateVoltageOfRegulator p (runSim p n).adjustmentErrors n)] :=
  simStep_voltagesList p n (runSim p n)

theorem runSim_electromagneticMomentList_succ (p : Params) (n : ℕ) :
    (runSim p (n + 1)).electromagneticMomentList
      = (runSim p n).electromagneticMomentList ++
          [calculateElectromagneticMoment p.constantOfElectromagneticMoment
            ((runSim p n).voltagesList.getD n 0)] :=
  simStep_electromagneticMomentList p n (runSim p n)
    (by rw [(length_runSim p n).2.2.2.2.1]; omega)

theorem runSim_revolutionsList_succ (p : Params) (n : ℕ) :
    (runSim p (n + 1)).revolutionsList
      = (runSim p n).revolutionsList ++
          [calculateRevolutions p ((runSim p n).revolutionsList.getD n 0)
            ((runSim p n).electromagneticMomentList.getD n 0)] :=
  simStep_revolutionsList p n (runSim p n)
    (by rw [(length_runSim p n).2.2.1]; omega)

theorem runSim_adjustmentErrors_succ (p : Params) (n : ℕ) :
    (runSim p (n + 1)).adjustmentErrors
      = (runSim p n).adjustmentErrors ++
          [calculateAdjustmentError p.referencedRevolutionsPerMinute
            ((runSim p n).revolutionsList.getD n 0)] :=
  simStep_adjustmentErrors p n (runSim p n)
    (by rw [(length_runSim p n).2.2.2.2.2.1]; omega)

/-! ### Entry lemmas: the value appended at sample `n` -/

theorem runSim_volt_entry (p : Params) (n : ℕ) :
    (runSim p (n + 1)).voltagesList.getD (n + 1) 0
      = calculateNormalizedVoltage p
          (calculateVoltageOfRegulator p (runSim p n).adjustmentErrors n) := by
  rw [runSim_voltagesList_succ,
    List.getD_append_right _ _ _ _ (le_of_eq (length_runSim p n).2.2.2.2.1),
    (length_runSim p n).2.2.2.2.1]
  simp

theorem runSim_em_entry (p : Params) (n : ℕ) :
    (runSim p (n + 1)).electromagneticMomentList.getD (n + 1) 0
      = calculateElectromagneticMoment p.constantOfElectromagneticMoment
          ((runSim p n).voltagesList.getD n 0) := by
  rw [runSim_electromagneticMomentList_succ,
    List.getD_append_right _ _ _ _ (le_of_eq (length_runSim p n).2.2.1),
    (length_runSim p n).2.2.1]
  simp

theorem runSim_rev_entry (p : Params) (n : ℕ) :
    (runSim p (n + 1)).revolutionsList.getD (n + 1) 0
      = calculateRevolutions p ((runSim p n).revolutionsList.getD n 0)
          ((runSim p n).electromagneticMomentList.getD n 0) := by
  rw [runSim_revolutionsList_succ,
    List.getD_append_right _ _ _ _ (le_of_eq (length_runSim p n).2.2.2.2.2.1),
    (length_runSim p n).2.2.2.2.2.1]
  simp

theorem runSim_err_entry (p : Params) (n : ℕ) :
    (runSim p (n + 1)).adjustmentErrors.getD (n + 1) 0
      = calculateAdjustmentError p.referencedRevolutionsPerMinute
          ((runSim p n).revolutionsList.getD n 0) := by
  rw [runSim_adjustmentErrors_succ,
    List.getD_append_right _ _ _ _ (le_of_eq (length_runSim p n).2.2.2.1),
    (length_runSim p n).2.2.2.1]
  simp

/-! ### Claim theorems -/

/-- C1: one-step actuator lag.  The electromagnetic-torque value appended at
sample `i` equals the gain constant times the voltage-series entry already
stored at index `i` before this sample's voltage was appended; that entry is
the seed zero when `i = 0` and, for every sample, the entry stored at index
`i + 1` (which sample `i + 1` will read) is the saturated voltage computed at
sample `i` — never the voltage computed during the same sample. -/
theorem C1_actuator_one_step_lag (p : Params) (i : ℕ) :
    (runSim p (i + 1)).electromagneticMomentList.getD (i + 1) 0
      = calculateElectromagneticMoment p.constantOfElectromagneticMoment
          ((runSim p i).voltagesList.getD i 0)
    ∧ (runSim p 0).voltagesList.getD 0 0 = 0
    ∧ (runSim p (i + 1)).voltagesList.getD (i + 1) 0
        = calculateNormalizedVoltage p
            (calculateVoltageOfRegulator p (runSim p i).adjustmentErrors i) :=
  ⟨runSim_em_entry p i, by simp [runSim, initState], runSim_volt_entry p i⟩

/-- C3 (amended): the tracking-error entry appended at the end of sample `i`
equals the target speed minus the speed-series entry already stored at index
`i` before this sample's speed was appended (the seed zero when `i = 0`,
otherwise the speed computed at sample `i - 1`), not the speed computed
during sample `i` itself. -/
theorem C3_error_series_update_amended (p : Params) (i : ℕ) :
    (runSim p (i + 1)).adjustmentErrors.getD (i + 1) 0
      = p.referencedRevolutionsPerMinute - (runSim p i).revolutionsList.getD i 0
    ∧ (runSim p 0).revolutionsList.getD 0 0 = 0 :=
  ⟨runSim_err_entry p i, by simp [runSim, initState]⟩

/-- C9 (counterexample): the load-torque series is not constant at the
configured load torque — its seed entry at index 0 is `0.0`, while the
worked-scenario configuration has load torque 1. -/
theorem C9_constant_series_cex :
    (runSim scenarioParams 1).loadMomentList.getD 0 0 ≠ scenarioParams.loadMoment := by
  simp [runSim, initState, simStep_loadMomentList, scenarioParams]

/-- C9 (amended): the braking-torque series is constant at the configured
braking torque over its whole length (seed included), while the load-torque
series has seed entry `0` followed by one copy of the configured load torque
per completed sample. -/
theorem C9_constant_series_amended (p : Params) (n : ℕ) :
    (runSim p n).loadMomentList = 0 :: List.replicate n p.loadMoment
    ∧ (runSim p n).brakingMomentList = List.replicate (n + 1) p.brakingMoment := by
  induction n with
  | zero => simp [runSim, initState]
  | succ k ih =>
    obtain ⟨h1, h2⟩ := ih
    constructor
    · show (simStep p k (runSim p k)).loadMomentList = _
      rw [simStep_loadMomentList, h1, List.replicate_succ']
      simp
    · show (simStep p k (runSim p k)).brakingMomentList = _
      rw [simStep_brakingMomentList, h2, ← List.replicate_succ']

/-- C6: series-length invariant.  After every loop iteration all seven
series have the same length `n + 1`; the loop iteration count for
totalDuration 1000 and sample period 0.1 is 10000, so every series of the
completed run has exactly 10001 entries. -/
theorem C6_series_length_invariant :
    (∀ (p : Params) (n : ℕ),
      (runSim p n).timeOfSimulationList.length = n + 1 ∧
      (runSim p n).loadMomentList.length = n + 1 ∧
      (runSim p n).electromagneticMomentList.length = n + 1 ∧
      (runSim p n).adjustmentErrors.length = n + 1 ∧
      (runSim p n).voltagesList.length = n + 1 ∧
      (runSim p n).revolutionsList.length = n + 1 ∧
      (runSim p n).brakingMomentList.length = n + 1)
    ∧ (∀ p : Params,
      (fullRun p).timeOfSimulationList.length = simIterationCount p + 1 ∧
      (fullRun p).loadMomentList.length = simIterationCount p + 1 ∧
      (fullRun p).electromagneticMomentList.length = simIterationCount p + 1 ∧
      (fullRun p).adjustmentErrors.length = simIterationCount p + 1 ∧
      (fullRun p).voltagesList.length = simIterationCount p + 1 ∧
      (fullRun p).revolutionsList.length = simIterationCount p + 1 ∧
      (fullRun p).brakingMomentList.length = simIterationCount p + 1)
    ∧ simIterationCount scenarioParams = 10000
    ∧ (fullRun scenarioParams).timeOfSimulationList.length = 10001
    ∧ (fullRun scenarioParams).loadMomentList.length = 10001
    ∧ (fullRun scenarioParams).electromagneticMomentList.length = 10001
    ∧ (fullRun scenarioParams).adjustmentErrors.length = 10001
    ∧ (fullRun scenarioParams).voltagesList.length = 10001
    ∧ (fullRun scenarioParams).revolutionsList.length = 10001
    ∧ (fullRun scenarioParams).brakingMomentList.length = 10001 := by
  have hdiv : (1000 : ℝ) / 0.1 = ((10000 : ℤ) : ℝ) := by norm_num
  have hcount : simIterationCount scenarioParams = 10000 := by
    simp [simIterationCount, pyInt, scenarioParams, hdiv, Int.floor_intCast]
  have hfull : fullRun scenarioParams = runSim scenarioParams 10000 := by
    rw [fullRun, hcount]
  refine ⟨length_runSim, fun p => length_runSim p (simIterationCount p), hcount,
    ?_, ?_, ?_, ?_, ?_, ?_, ?_⟩ <;> rw [hfull]
  · exact (length_runSim scenarioParams 10000).1
  · exact (length_runSim scenarioParams 10000).2.1
  · exact (length_runSim scenarioParams 10000).2.2.1
  · exact (length_runSim scenarioParams 10000).2.2.2.1
  · exact (length_runSim scenarioParams 10000).2.2.2.2.1
  · exact (length_runSim scenarioParams 10000).2.2.2.2.2.1
  · exact (length_runSim scenarioParams 10000).2.2.2.2.2.2

/-- C10: the helper `calculateNumberOfIterations` returns
`floor(timeOfSimulation / timeOfSample) + 1` for positive arguments, which
is exactly one more than the number of loop iterations the simulation
actually executes (the loop independently uses
`int(timeOfSimulation / timeOfSample)`). -/
theorem C10_iteration_count_off_by_one (ts tp : ℝ) (h1 : 0 < ts) (h2 : 0 < tp) :
    calculateNumberOfIterations ts tp = ⌊ts / tp⌋ + 1
    ∧ ∀ p : Params, p.timeOfSimulation = ts → p.timeOfSample = tp →
        calculateNumberOfIterations ts tp = (simIterationCount p : ℤ) + 1 := by
  have hx : (0 : ℝ) ≤ ts / tp := le_of_lt (div_pos h1 h2)
  have hfl : (0 : ℤ) ≤ ⌊ts / tp⌋ := Int.floor_nonneg.mpr hx
  constructor
  · simp [calculateNumberOfIterations, pyInt, hx]
  · intro p hts htp
    simp [calculateNumberOfIterations, simIterationCount, pyInt, hts, htp, hx,
      Int.toNat_of_nonneg hfl]

/-- Witness for C10 at the worked-scenario configuration: duration 1000 and
sample period 0.1 are positive, the helper returns 10001 = floor + 1, and
the loop executes 10000 iterations. -/
theorem C10_iteration_count_off_by_one_witness :
    ((0 : ℝ) < 1000 ∧ (0 : ℝ) < 0.1)
    ∧ calculateNumberOfIterations 1000 0.1 = ⌊(1000 : ℝ) / 0.1⌋ + 1
    ∧ calculateNumberOfIterations 1000 0.1 = (simIterationCount scenarioParams : ℤ) + 1 := by
  have h := C10_iteration_count_off_by_one 1000 0.1 (by norm_num) (by norm_num)
  exact ⟨⟨by norm_num, by norm_num⟩, h.1, h.2 scenarioParams rfl rfl⟩

/-- C2: PID control law.  For every error history, in-range index and
positive sample period, the raw controller voltage is the proportional term
`Kp * e[i]` plus the integral term `Ki * samplePeriod * (sum of the whole
history, seed included)` plus a derivative term that is 0 at index 0 and
`Kd * (e[i] - e[i-1]) / samplePeriod` afterwards, with no saturation
applied. -/
theorem C2_pid_control_law (p : Params) (errorList : List ℝ) (i : ℕ)
    (hi : i < errorList.length) (hT : 0 < p.timeOfSample) :
    calculateVoltageOfRegulator p errorList i
      = p.Kp * errorList.getD i 0
        + p.Ki * p.timeOfSample * errorList.sum
        + (if i = 0 then 0
           else p.Kd * ((errorList.getD i 0 - errorList.getD (i - 1) 0) / p.timeOfSample)) := by
  unfold calculateVoltageOfRegulator
  rcases Nat.eq_zero_or_pos i with h | h
  · subst h
    simp
    ring
  · rw [if_pos h, if_neg (Nat.pos_iff_ne_zero.mp h)]
    ring

/-- Witness for C2: the error history `[3000, 2999]` at index 1 under the
worked-scenario gains satisfies the hypotheses and the control-law
formula. -/
theorem C2_pid_control_law_witness :
    (1 < ([3000, 2999] : List ℝ).length ∧ 0 < scenarioParams.timeOfSample)
    ∧ calculateVoltageOfRegulator scenarioParams [3000, 2999] 1
        = scenarioParams.Kp * ([3000, 2999] : List ℝ).getD 1 0
          + scenarioParams.Ki * scenarioParams.timeOfSample * ([3000, 2999] : List ℝ).sum
          + (if 1 = 0 then 0
             else scenarioParams.Kd *
               ((([3000, 2999] : List ℝ).getD 1 0 - ([3000, 2999] : List ℝ).getD 0 0) /
                 scenarioParams.timeOfSample)) :=
  ⟨⟨by norm_num, by norm_num [scenarioParams]⟩,
    C2_pid_control_law scenarioParams [3000, 2999] 1 (by norm_num)
      (by norm_num [scenarioParams])⟩

/-- C5: saturation bound.  When `Umin ≤ Umax`, every voltage-series entry
appended by a sample (the clamp of the raw controller voltage) lies in the
closed interval `[Umin, Umax]`; when additionally the seed zero lies between
the bounds, every entry of the voltage series of every run does. -/
theorem C5_saturation_bound (p : Params) (hUV : p.Umin ≤ p.Umax) (n : ℕ) :
    (∀ i : ℕ, p.Umin ≤ (runSim p (i + 1)).voltagesList.getD (i + 1) 0
        ∧ (runSim p (i + 1)).voltagesList.getD (i + 1) 0 ≤ p.Umax)
    ∧ (p.Umin ≤ 0 → 0 ≤ p.Umax →
        ∀ v ∈ (runSim p n).voltagesList, p.Umin ≤ v ∧ v ≤ p.Umax) := by
  constructor
  · intro i
    rw [runSim_volt_entry, calculateNormalizedVoltage]
    exact ⟨le_max_left _ _, max_le hUV (min_le_left _ _)⟩
  · intro h0 h1
    induction n with
    | zero =>
      intro v hv
      simp [runSim, initState] at hv
      rw [hv]
      exact ⟨h0, h1⟩
    | succ k ih =>
      intro v hv
      rw [runSim_voltagesList_succ] at hv
      rcases List.mem_append.mp hv with h | h
      · exact ih v h
      · have hv' : v = calculateNormalizedVoltage p
            (calculateVoltageOfRegulator p (runSim p k).adjustmentErrors k) := by
          simpa using h
        rw [hv', calculateNormalizedVoltage]
        exact ⟨le_max_left _ _, max_le hUV (min_le_left _ _)⟩

/-- Witness for C5 at the worked-scenario configuration, after two loop
iterations. -/
theorem C5_saturation_bound_witness :
    (scenarioParams.Umin ≤ scenarioParams.Umax ∧ scenarioParams.Umin ≤ 0
      ∧ 0 ≤ scenarioParams.Umax)
    ∧ (scenarioParams.Umin ≤ (runSim scenarioParams 1).voltagesList.getD 1 0
        ∧ (runSim scenarioParams 1).voltagesList.getD 1 0 ≤ scenarioParams.Umax)
    ∧ ∀ v ∈ (runSim scenarioParams 2).voltagesList,
        scenarioParams.Umin ≤ v ∧ v ≤ scenarioParams.Umax := by
  have h := C5_saturation_bound scenarioParams (by norm_num [scenarioParams]) 2
  exact ⟨⟨by norm_num [scenarioParams], by norm_num [scenarioParams],
    by norm_num [scenarioParams]⟩, h.1 0,
    h.2 (by norm_num [scenarioParams]) (by norm_num [scenarioParams])⟩

/-- C7: zero-gain decay.  With `Kp = Ki = Kd = 0` and `Umin ≤ 0 ≤ Umax`,
every voltage-series and torque-series entry is 0, and each new speed entry
differs from the previous one by the constant angular increment
`samplePeriod * (-loadTorque - brakingTorque) / inertia` converted to RPM,
so the speed series is linear in time. -/
theorem C7_zero_gain_decay (p : Params) (hKp : p.Kp = 0) (hKi : p.Ki = 0) (hKd : p.Kd = 0)
    (h0 : p.Umin ≤ 0) (h1 : 0 ≤ p.Umax) :
    (∀ n, (runSim p n).voltagesList = List.replicate (n + 1) 0
        ∧ (runSim p n).electromagneticMomentList = List.replicate (n + 1) 0)
    ∧ ∀ i, (runSim p (i + 1)).revolutionsList.getD (i + 1) 0
        = (runSim p i).revolutionsList.getD i 0
          + convertToRevolutionsPerMinute
              (p.timeOfSample * ((-p.loadMoment - p.brakingMoment) / p.momentOfInertia)) := by
  have hvolt : ∀ (errs : List ℝ) (i : ℕ), calculateVoltageOfRegulator p errs i = 0 := by
    intro errs i
    rw [calculateVoltageOfRegulator]
    rw [hKp, hKi, hKd]
    simp
  have hclamp : calculateNormalizedVoltage p 0 = 0 := by
    rw [calculateNormalizedVoltage, min_eq_right h1, max_eq_right h0]
  have hrepl : ∀ k : ℕ, (List.replicate (k + 1) (0 : ℝ)).getD k 0 = 0 := by
    intro k
    rw [List.getD_eq_getElem _ _ (by simp)]
    simp
  have main : ∀ n, (runSim p n).voltagesList = List.replicate (n + 1) 0
      ∧ (runSim p n).electromagneticMomentList = List.replicate (n + 1) 0 := by
    intro n
    induction n with
    | zero => exact ⟨by simp [runSim, initState], by simp [runSim, initState]⟩
    | succ k ih =>
      obtain ⟨hv, he⟩ := ih
      constructor
      · rw [runSim_voltagesList_succ, hvolt, hclamp, hv, ← List.replicate_succ']
      · rw [runSim_electromagneticMomentList_succ, hv, he, hrepl,
          calculateElectromagneticMoment, mul_zero, ← List.replicate_succ']
  refine ⟨main, ?_⟩
  intro i
  have hem : (runSim p i).electromagneticMomentList.getD i 0 = 0 := by
    rw [(main i).2, hrepl]
  rw [runSim_rev_entry, hem, calculateRevolutions]
  rw [convertToAngularVelocity, convertToRevolutionsPerMinute, convertToRevolutionsPerMinute]
  have hpi : (π : ℝ) ≠ 0 := Real.pi_ne_zero
  have key : 2 * π / 60 * (60 / (2 * π)) = 1 := by
    field_simp
  rw [add_mul, mul_assoc, key, mul_one]
  ring

/-- Witness for C7 at the zero-gain configuration: the hypotheses hold and
after two iterations both the voltage and torque series are `[0, 0, 0]`,
while the speed entry appended at sample 1 differs from the sample-0 entry
by the constant converted increment. -/
theorem C7_zero_gain_decay_witness :
    (zeroGainParams.Kp = 0 ∧ zeroGainParams.Ki = 0 ∧ zeroGainParams.Kd = 0
      ∧ zeroGainParams.Umin ≤ 0 ∧ 0 ≤ zeroGainParams.Umax)
    ∧ ((runSim zeroGainParams 2).voltagesList = List.replicate 3 0
        ∧ (runSim zeroGainParams 2).electromagneticMomentList = List.replicate 3 0)
    ∧ (runSim zeroGainParams 2).revolutionsList.getD 2 0
        = (runSim zeroGainParams 1).revolutionsList.getD 1 0
          + convertToRevolutionsPerMinute
              (zeroGainParams.timeOfSample *
                ((-zeroGainParams.loadMoment - zeroGainParams.brakingMoment) /
                  zeroGainParams.momentOfInertia)) := by
  have h := C7_zero_gain_decay zeroGainParams rfl rfl rfl (by norm_num [zeroGainParams])
    (by norm_num [zeroGainParams])
  exact ⟨⟨rfl, rfl, rfl, by norm_num [zeroGainParams], by norm_num [zeroGainParams]⟩,
    h.1 2, h.2 1⟩

/-! ### Concrete evaluations at the worked-scenario configuration -/

theorem scenario_rev0 : (runSim scenarioParams 0).revolutionsList.getD 0 0 = 0 := by
  simp [runSim, initState]

theorem scenario_em0 : (runSim scenarioParams 0).electromagneticMomentList.getD 0 0 = 0 := by
  simp [runSim, initState]

theorem scenario_volt0 : (runSim scenarioParams 0).voltagesList.getD 0 0 = 0 := by
  simp [runSim, initState]

theorem scenario_err0 : (runSim scenarioParams 0).adjustmentErrors = [3000] := by
  simp [runSim, initState, scenarioParams]

theorem scenario_rev1 : (runSim scenarioParams 1).revolutionsList.getD 1 0
    = calculateRevolutions scenarioParams 0 0 := by
  rw [runSim_rev_entry, scenario_rev0, scenario_em0]

theorem scenario_em1 : (runSim scenarioParams 1).electromagneticMomentList.getD 1 0 = 0 := by
  rw [runSim_em_entry, scenario_volt0, calculateElectromagneticMoment, mul_zero]

theorem scenario_rev_step_value : calculateRevolutions scenarioParams 0 0 = -(3 / π) := by
  simp only [calculateRevolutions, convertToAngularVelocity, convertToRevolutionsPerMinute,
    scenarioParams]
  have hpi : (π : ℝ) ≠ 0 := Real.pi_ne_zero
  field_simp
  ring

theorem scenario_rev_step_value2 :
    calculateRevolutions scenarioParams (-(3 / π)) 0 = -(6 / π) := by
  simp only [calculateRevolutions, convertToAngularVelocity, convertToRevolutionsPerMinute,
    scenarioParams]
  have hpi : (π : ℝ) ≠ 0 := Real.pi_ne_zero
  field_simp
  ring

/-- C3 (counterexample): in the worked-scenario run, the tracking-error
entry appended at the end of sample 1 is `3000 + 3/π` (computed from the
speed stored **before** sample 1's update), while the target speed minus the
speed computed and appended during sample 1 is `3000 + 6/π`; the two
differ. -/
theorem C3_error_series_cex :
    (runSim scenarioParams 2).adjustmentErrors.getD 2 0
      ≠ scenarioParams.referencedRevolutionsPerMinute
          - (runSim scenarioParams 2).revolutionsList.getD 2 0 := by
  have hr2 : (runSim scenarioParams 2).revolutionsList.getD 2 0 = -(6 / π) := by
    rw [runSim_rev_entry, scenario_rev1, scenario_em1, scenario_rev_step_value,
      scenario_rev_step_value2]
  have he2 : (runSim scenarioParams 2).adjustmentErrors.getD 2 0
      = scenarioParams.referencedRevolutionsPerMinute - -(3 / π) := by
    rw [runSim_err_entry, scenario_rev1, scenario_rev_step_value, calculateAdjustmentError]
  rw [he2, hr2]
  intro h
  have h' : (3 : ℝ) / π = 6 / π := by linarith
  have hpi : (π : ℝ) ≠ 0 := Real.pi_ne_zero
  field_simp at h'
  norm_num at h'

/-- C4: worked scenario, sample 0.  The raw controller voltage is exactly
21.039 and the clamp leaves it unchanged; the torque appended at sample 0 is
0 (it uses the lagged seed voltage); the speed appended at sample 0 equals
`convertToRevolutionsPerMinute (-1/10)` (i.e. `omega = -0.1 rad/s`), which
lies strictly between -0.955 and -0.9548 RPM; and the error appended at
sample 0 is `3000 - 0 = 3000`, computed from the speed stored before this
sample's update. -/
theorem C4_worked_scenario_sample0 :
    calculateVoltageOfRegulator scenarioParams (runSim scenarioParams 0).adjustmentErrors 0
      = 21.039
    ∧ (runSim scenarioParams 1).voltagesList.getD 1 0 = 21.039
    ∧ (runSim scenarioParams 1).electromagneticMomentList.getD 1 0 = 0
    ∧ (runSim scenarioParams 1).revolutionsList.getD 1 0
        = convertToRevolutionsPerMinute (-(1 : ℝ) / 10)
    ∧ -(0.955 : ℝ) < (runSim scenarioParams 1).revolutionsList.getD 1 0
    ∧ (runSim scenarioParams 1).revolutionsList.getD 1 0 < -(0.9548 : ℝ)
    ∧ (runSim scenarioParams 1).adjustmentErrors.getD 1 0 = 3000 := by
  have hraw : calculateVoltageOfRegulator scenarioParams (runSim scenarioParams 0).adjustmentErrors 0
      = 21.039 := by
    rw [scenario_err0]
    simp [calculateVoltageOfRegulator, scenarioParams]
    norm_num
  have hclamp : calculateNormalizedVoltage scenarioParams 21.039 = 21.039 := by
    rw [calculateNormalizedVoltage]
    rw [show scenarioParams.Umax = 24 from rfl, show scenarioParams.Umin = 0 from rfl]
    rw [min_eq_right (by norm_num), max_eq_right (by norm_num)]
  have hvolt1 : (runSim scenarioParams 1).voltagesList.getD 1 0 = 21.039 := by
    rw [runSim_volt_entry, hraw, hclamp]
  have hrev1 : (runSim scenarioParams 1).revolutionsList.getD 1 0
      = convertToRevolutionsPerMinute (-(1 : ℝ) / 10) := by
    rw [scenario_rev1, calculateRevolutions]
    have harg : convertToAngularVelocity 0
        + scenarioParams.timeOfSample *
          ((0 - scenarioParams.loadMoment - scenarioParams.brakingMoment) /
            scenarioParams.momentOfInertia) = -(1 : ℝ) / 10 := by
      simp [convertToAngularVelocity, scenarioParams]
      norm_num
    rw [harg]
  have hval : convertToRevolutionsPerMinute (-(1 : ℝ) / 10) = -(3 / π) := by
    rw [convertToRevolutionsPerMinute]
    have hpi : (π : ℝ) ≠ 0 := Real.pi_ne_zero
    field_simp
    ring
  have hlow : -(0.955 : ℝ) < -(3 / π) := by
    have h3 : (3 : ℝ) / π < 0.955 := by
      rw [div_lt_iff₀ Real.pi_pos]
      linarith [Real.pi_gt_d6]
    linarith
  have hhigh : -(3 / π) < -(0.9548 : ℝ) := by
    have h3 : (0.9548 : ℝ) < 3 / π := by
      rw [lt_div_iff₀ Real.pi_pos]
      linarith [Real.pi_lt_d6]
    linarith
  have herr1 : (runSim scenarioParams 1).adjustmentErrors.getD 1 0 = 3000 := by
    rw [runSim_err_entry, scenario_rev0, calculateAdjustmentError, sub_zero]
    rfl
  refine ⟨hraw, hvolt1, scenario_em1, hrev1, ?_, ?_, herr1⟩
  · rw [hrev1, hval]
    exact hlow
  · rw [hrev1, hval]
    exact hhigh
